import Mathlib

/-!
Verification development for the Assistente_PDF repository.

The definitions below are a shallow embedding of the retrieval-and-context
pipeline of `app/chat/assistente_dana.py`, of the indexing orchestration of
`app/utils/pdf_index.py` / `app/utils/rag/*.py`, and of the upload handler of
`app/main.py`.  Python strings are modelled as Lean `String` (Python `len`
counts code points, as does `String.length` on `String.data`), Python `None`
as `Option`, and the Streamlit session as an explicit state record.
-/

/-! ## Python string helpers -/

/-- Python `str.strip()` on a list of characters: drop leading and trailing
whitespace. -/
def pyStripList (l : List Char) : List Char :=
  ((l.dropWhile Char.isWhitespace).reverse.dropWhile Char.isWhitespace).reverse

/-- Python `str.strip()`. -/
def pyStrip (s : String) : String :=
  ⟨pyStripList s.data⟩

/-- Python `str.lower()` on one character.  ASCII letters are lowered by
`Char.toLower`; the accented Latin capitals that appear in the locale
tables of the repository are mapped to their accented lowercase forms, as Python does. -/
def pyLowerChar (c : Char) : Char :=
  match c with
  | 'Á' => 'á' | 'À' => 'à' | 'Â' => 'â' | 'Ã' => 'ã' | 'Ä' => 'ä'
  | 'É' => 'é' | 'È' => 'è' | 'Ê' => 'ê' | 'Ë' => 'ë'
  | 'Í' => 'í' | 'Ì' => 'ì' | 'Î' => 'î' | 'Ï' => 'ï'
  | 'Ó' => 'ó' | 'Ò' => 'ò' | 'Ô' => 'ô' | 'Õ' => 'õ' | 'Ö' => 'ö'
  | 'Ú' => 'ú' | 'Ù' => 'ù' | 'Û' => 'û' | 'Ü' => 'ü'
  | 'Ç' => 'ç'
  | _ => c.toLower

/-- Python `str.lower()`. -/
def pyLower (s : String) : String :=
  ⟨s.data.map pyLowerChar⟩

/-- Embeds `_normalize` (`unicodedata.normalize("NFD", s).encode("ascii",
"ignore")`) at the level of one character: ASCII characters are kept, the
accented Latin letters used by the locale tables decompose under NFD into
their base letter plus a combining mark that the ASCII encode drops, and any
other non-ASCII character is dropped entirely. -/
def normalizeChar (c : Char) : List Char :=
  if c.toNat < 128 then [c]
  else match c with
  | 'á' | 'à' | 'â' | 'ã' | 'ä' => ['a']
  | 'é' | 'è' | 'ê' | 'ë' => ['e']
  | 'í' | 'ì' | 'î' | 'ï' => ['i']
  | 'ó' | 'ò' | 'ô' | 'õ' | 'ö' => ['o']
  | 'ú' | 'ù' | 'û' | 'ü' => ['u']
  | 'ç' => ['c']
  | 'Á' | 'À' | 'Â' | 'Ã' | 'Ä' => ['A']
  | 'É' | 'È' | 'Ê' | 'Ë' => ['E']
  | 'Í' | 'Ì' | 'Î' | 'Ï' => ['I']
  | 'Ó' | 'Ò' | 'Ô' | 'Õ' | 'Ö' => ['O']
  | 'Ú' | 'Ù' | 'Û' | 'Ü' => ['U']
  | 'Ç' => ['C']
  | _ => []

/-- Embeds `_normalize` of `app/chat/assistente_dana.py`. -/
def normalizeStr (s : String) : String :=
  ⟨s.data.flatMap normalizeChar⟩

/-- Python whitespace-`split()` worker: `acc` holds the current word reversed. -/
def pySplitGo : List Char → List Char → List String
  | acc, [] => if acc.isEmpty then [] else [⟨acc.reverse⟩]
  | acc, c :: rest =>
    if c.isWhitespace then
      if acc.isEmpty then pySplitGo [] rest
      else ⟨acc.reverse⟩ :: pySplitGo [] rest
    else pySplitGo (c :: acc) rest

/-- Python `str.split()` with no argument: split on whitespace runs, no empty
words. -/
def pySplit (s : String) : List String :=
  pySplitGo [] s.data

/-- Does `needle` start `hay`? -/
def startsWithL : List Char → List Char → Bool
  | [], _ => true
  | _ :: _, [] => false
  | a :: as, b :: bs => a = b && startsWithL as bs

/-- Index of the first occurrence of `needle` in the suffix of the haystack,
offset by `i` (worker for Python `str.index` / the `in` operator). -/
def firstIdxGo (needle : List Char) : List Char → Nat → Option Nat
  | [], i => if needle.isEmpty then some i else none
  | c :: rest, i =>
    if startsWithL needle (c :: rest) then some i
    else firstIdxGo needle rest (i + 1)

/-- Python `needle in hay` for strings. -/
def pyContainsSub (needle hay : String) : Bool :=
  (firstIdxGo needle.data hay.data 0).isSome

/-- Python `hay.index(needle)` (as an `Option`, `none` when absent). -/
def pyIndexSub (needle hay : String) : Option Nat :=
  firstIdxGo needle.data hay.data 0

/-! ## Data model

One `langchain_core.documents.Document`: page text plus the metadata fields
this repository reads (`page`, `source`, `file_path`).  The loaders
(`_carregar_paginas` / `load_pdf_pages`) always set all three; a missing key
(Python `metadata.get` default) is modelled by `none`. -/

structure Metadados where
  page : Option Int
  source : Option String
  file_path : Option String
deriving DecidableEq, Repr, Inhabited

structure Document where
  page_content : String
  metadata : Metadados
deriving DecidableEq, Repr, Inhabited

/-! ## `_compactar_docs` (app/chat/assistente_dana.py, lines 256-266) -/

/-- The loop of `_compactar_docs`: walk the docs carrying the accumulated
character count `total`; skip a doc whose stripped text is empty; `break`
(drop the rest) as soon as a text would push `total` past `limite`. -/
def compactar_partes_go (limite : Nat) : List Document → Nat → List String
  | [], _ => []
  | d :: rest, total =>
    let t := pyStrip d.page_content
    if t = "" then compactar_partes_go limite rest total
    else if limite < total + t.length then []
    else t :: compactar_partes_go limite rest (total + t.length)

/-- The `parts` list accumulated by `_compactar_docs`. -/
def compactar_partes (docs : List Document) (limite_chars : Nat) : List String :=
  compactar_partes_go limite_chars docs 0

/-- Embeds `_compactar_docs`: the parts joined with the 7-character separator.
The default for `limite_chars` in the source is 5200. -/
def compactar_docs (docs : List Document) (limite_chars : Nat) : String :=
  String.intercalate ("\n\n---\n\n") (compactar_partes docs limite_chars)

/-- Total character count of a list of parts. -/
def partesTotalLen (ps : List String) : Nat :=
  (ps.map String.length).sum

/-! ## `_extrair_pagina` (app/chat/assistente_dana.py, lines 346-357)

The locale tables store page-reference regexes of the single shape
`\bKW\.?\s*(\d+)\b` (after the source applies `_normalize` to the pattern,
the character class `[aá]` collapses to `a` and the optional group
`(?:ina)?` becomes a choice between a longer and a shorter keyword).  A
pattern is therefore modelled as its list of alternative keyword spellings,
tried longest first exactly as the backtracking regex engine does. -/

structure PagePattern where
  alts : List String
deriving DecidableEq, Repr

/-- A regex word character (`\w`) over the normalized ASCII text. -/
def isWordChar (c : Char) : Bool :=
  c.isAlphanum || c = '_'

/-- Numeric value of a digit run. -/
def digitsVal (l : List Char) : Nat :=
  l.foldl (fun a c => a * 10 + (c.toNat - '0'.toNat)) 0

/-- Drop `kw` from the head of `s` if it is there. -/
def dropHead : List Char → List Char → Option (List Char)
  | [], s => some s
  | _ :: _, [] => none
  | k :: ks, c :: cs => if k = c then dropHead ks cs else none

/-- Match `\.?\s*(\d+)\b` at the head of `s` and return the captured number.
Consuming the optional dot and the maximal whitespace/digit runs is
equivalent to the backtracking regex: any shorter consumption puts a dot,
a space or a digit where a digit or a word boundary is required. -/
def matchAfterKw (s : List Char) : Option Nat :=
  let s1 := match s with
    | '.' :: r => r
    | r => r
  let s2 := s1.dropWhile Char.isWhitespace
  let ds := s2.takeWhile Char.isDigit
  let rest := s2.dropWhile Char.isDigit
  if ds.isEmpty then none
  else match rest with
    | [] => some (digitsVal ds)
    | c :: _ => if isWordChar c then none else some (digitsVal ds)

/-- Try the keyword alternatives of one pattern at the current position (the
regex tries the longer spelling first and backtracks to the shorter one). -/
def tryAlts : List (List Char) → List Char → Option Nat
  | [], _ => none
  | kw :: rest, s =>
    match dropHead kw s with
    | some r =>
      match matchAfterKw r with
      | some n => some n
      | none => tryAlts rest s
    | none => tryAlts rest s

/-- `re.search` for one page pattern: scan positions left to right; a match
may start only at a word boundary (`prevWord` records whether the previous
character was a word character). -/
def searchAux (alts : List (List Char)) : Bool → List Char → Option Nat
  | _, [] => none
  | prevWord, c :: rest =>
    match (if prevWord then none else tryAlts alts (c :: rest)) with
    | some n => some n
    | none => searchAux alts (isWordChar c) rest

/-- `re.search(pattern, s)` returning `int(m.group(1))`. -/
def searchPattern (pat : PagePattern) (s : String) : Option Nat :=
  searchAux (pat.alts.map String.data) false s.data

/-- The number captured by the first pattern in the list that matches. -/
def first_pattern_match : List PagePattern → String → Option Nat
  | [], _ => none
  | p :: rest, s =>
    match searchPattern p s with
    | some n => some n
    | none => first_pattern_match rest s

/-- Embeds `_extrair_pagina`: first matching pattern over the normalized
lower-cased question wins; the captured 1-based number becomes 0-based,
floored at 0.  (The `except ValueError: continue` of the source is dead code: a
`\d+` capture always converts.) -/
def extrair_pagina (pergunta : String) (patt_list : List PagePattern) : Option Int :=
  if pergunta = "" then none
  else
    match first_pattern_match patt_list (normalizeStr (pyLower pergunta)) with
    | some n => some (max ((n : Int) - 1) 0)
    | none => none

/-! ## Page-direct context (app/chat/assistente_dana.py, lines 359-368) -/

/-- Embeds `_contexto_por_pagina`: the slice of page units from
`max(pagina0 - vizinhas, 0)` to `min(pagina0 + vizinhas, n - 1)` inclusive,
written as the comprehension `[docs_paginas[i] for i in range(start, end + 1)]`
(the guard keeps every produced index in bounds, so the `getD` default is
never taken). -/
def contexto_por_pagina (docs_paginas : List Document) (pagina0 vizinhas : Int) :
    List Document :=
  let n := docs_paginas.length
  if n = 0 then []
  else
    let start := max (pagina0 - vizinhas) 0
    let fim := min (pagina0 + vizinhas) ((n : Int) - 1)
    (List.range' start.toNat (fim + 1 - start).toNat).map
      (fun i => docs_paginas.getD i default)

/-- Embeds `_tem_texto`: some doc has non-blank text. -/
def tem_texto (docs : List Document) : Bool :=
  docs.any (fun d => pyStrip d.page_content ≠ "")

/-- The `(metadata.get("page", "?"), metadata.get("source",
metadata.get("file_path", "")))` provenance tuple built by
`_montar_contexto` for each context doc (`none` models the `"?"` default). -/
def cite_of (d : Document) : Option Int × String :=
  (d.metadata.page, d.metadata.source.getD (d.metadata.file_path.getD ("")))

/-- The display mapping of `iniciar_assistente` lines 856-862: a known 0-based
page is shown 1-based; the source string is shown as is. -/
def display_cite (c : Option Int × String) : Option Int × String :=
  (c.1.map (· + 1), c.2)

/-- An index (semantic or lexical): both retriever objects produced by
`indexar_pdf` expose `invoke(query) -> docs`, which is the branch
`_montar_contexto` takes for them (its `as_retriever` branch, the only
consumer of `k`, is for a bare vectorstore and is never reached from the
callers in this repository). -/
abbrev Retriever := String → List Document

/-- Lines 395-397 of `_montar_contexto`: the resolved page is the forced one
when supplied, otherwise the one parsed from a truthy question. -/
def pagina_resolvida (pergunta : Option String) (pagina_forcada : Option Int)
    (patt_list : List PagePattern) : Option Int :=
  match pagina_forcada with
  | some p => some p
  | none =>
    match pergunta with
    | some q => if q ≠ "" then extrair_pagina q patt_list else none
    | none => none

/-- Embeds `_montar_contexto` (app/chat/assistente_dana.py, lines 386-420).
The `k` parameter is consumed only by the dead `as_retriever` branch (see
`Retriever`). -/
def montar_contexto (pergunta : Option String) (docs_paginas : List Document)
    (retriever_or_vector : Retriever) (k : Nat) (incluir_vizinhas : Int)
    (pagina_forcada : Option Int) (patt_list : List PagePattern) :
    List Document × List (Option Int × String) × Option Int :=
  match pagina_resolvida pergunta pagina_forcada patt_list with
  | some p =>
    if 0 ≤ p ∧ p < (docs_paginas.length : Int) then
      (contexto_por_pagina docs_paginas p incluir_vizinhas,
       (contexto_por_pagina docs_paginas p incluir_vizinhas).map cite_of, some p)
    else ([], [], some p)
  | none =>
    (retriever_or_vector (pergunta.getD ("")),
     (retriever_or_vector (pergunta.getD (""))).map cite_of, none)

/-! ## `_extrair_primeiro_nome` (app/chat/assistente_dana.py, lines 423-469) -/

/-- The self-introduction phrases scanned for, in source order. -/
def nome_padroes : List String :=
  ["me chamo", "meu nome é", "meu nome e", "eu sou",
   "mi chiamo", "sono", "my name is", "i am"]

/-- The punctuation characters replaced by spaces (the apostrophe is not
among them). -/
def pontuacao : List Char := [',', '.', '!', '?', ';', ':']

/-- The greeting stop-words skipped when picking the first name token. -/
def stopwords_iniciais : List String :=
  ["ola", "olá", "oi", "ciao", "hello", "hi", "hey",
   "buongiorno", "buonasera", "bom", "boa"]

/-- The pattern loop of `_extrair_primeiro_nome`: on the first phrase found
in the lower-cased text, cut `original` after it and strip; otherwise keep
`original`. -/
def ex_corte_go : List String → String → String → String
  | [], original, _ => original
  | p :: rest, original, lower =>
    match pyIndexSub p lower with
    | some idx => pyStrip ⟨original.data.drop (idx + p.length)⟩
    | none => ex_corte_go rest original lower

/-- `recorte` after the phrase cut. -/
def ex_recorte (resposta : String) : String :=
  let original := pyStrip resposta
  let lower := pyLower original
  ex_corte_go nome_padroes original lower

/-- The word list: punctuation replaced by spaces, then whitespace split. -/
def ex_partes (resposta : String) : List String :=
  pySplit ⟨(ex_recorte resposta).data.map (fun c => if c ∈ pontuacao then ' ' else c)⟩

/-- Embeds `_extrair_primeiro_nome`: first token whose lower-case form is not
a greeting stop-word; when every token is a stop-word the source falls back
to `partes[0]`; empty only for empty input or no tokens at all. -/
def extrair_primeiro_nome (resposta : String) : String :=
  if resposta = "" then ("")
  else
    match ex_partes resposta with
    | [] => ""
    | w :: ws =>
      match (w :: ws).find? (fun t => !(stopwords_iniciais.contains (pyLower t))) with
      | some t => pyStrip t
      | none => pyStrip w

/-! ## `detectar_intencao` (app/chat/assistente_dana.py, lines 475-506) -/

/-- The page-count keyword list (kept verbatim: the entries with accents can
never match the normalized question and are dead data in the source too). -/
def pads_pag : List String :=
  ["quantas paginas", "quantas páginas", "numero de paginas", "numero de páginas",
   "número de paginas", "número de páginas", "total de paginas", "total de páginas",
   "quante pagine", "numero di pagine", "numero pagine", "totale pagine",
   "how many pages", "number of pages", "total pages", "page count"]

/-- The file-name keyword list. -/
def pads_nome_arquivo : List String :=
  ["nome do arquivo", "nome do ficheiro", "nome do pdf",
   "come si chiama il file", "nome del file", "nome del pdf",
   "file name", "name of the file", "pdf name", "name of the pdf"]

/-- Embeds `detectar_intencao`. -/
def detectar_intencao (pergunta : String) : String :=
  if pergunta = "" then ("normal")
  else
    let p := normalizeStr (pyLower pergunta)
    if pads_pag.any (fun kw => pyContainsSub kw p) then ("contar_paginas")
    else if pads_nome_arquivo.any (fun kw => pyContainsSub kw p) then ("nome_pdf")
    else ("normal")

/-! ## Locale data (the `LANG` table of app/chat/assistente_dana.py)

Only the entries the chat turn logic consumes are embedded: the
`word_page_patterns` regex lists and the reply templates used by the
structural branches.  (The prompt templates feed the external LLM call and
are outside the turn outcomes modelled here.) -/

inductive LangCode where
  | pt
  | it
  | en
deriving DecidableEq, Repr

/-- `word_page_patterns` per language.  After `_extrair_pagina` normalizes the
pattern text: pt `\bp[aá]g(?:ina)?\.?\s*(\d+)\b` becomes alternatives
`pagina`/`pag` and `\bp[aá]gina\.?\s*(\d+)\b` becomes `pagina`; it and en
keep their literal keywords. -/
def word_page_patterns : LangCode → List PagePattern
  | .pt => [⟨["pagina", "pag"]⟩, ⟨["pagina"]⟩]
  | .it => [⟨["pagina"]⟩, ⟨["pag"]⟩]
  | .en => [⟨["page"]⟩, ⟨["pg"]⟩]

/-- `ui_page_not_exist` formatted with the 1-based page and the total. -/
def ui_page_not_exist (lang : LangCode) (page : Int) (total : Nat) : String :=
  match lang with
  | .pt => "A página " ++ toString page ++ " não existe. Este PDF tem "
      ++ toString total ++ " páginas."
  | .it => "La pagina " ++ toString page ++ " non esiste. Questo PDF ha "
      ++ toString total ++ " pagine."
  | .en => "Page " ++ toString page ++ " does not exist. This PDF has "
      ++ toString total ++ " pages."

/-- `ui_not_found`, the fixed "no relevant excerpts" message. -/
def ui_not_found : LangCode → String
  | .pt => "Não encontrei trechos relevantes no documento para esta solicitação."
  | .it => "Non ho trovato estratti rilevanti nel documento per questa richiesta."
  | .en => "No relevant excerpts found in the document for this request."

/-- The `contar_paginas` reply (iniciar_assistente lines 731-738). -/
def resposta_total_paginas (lang : LangCode) (total : Nat) : String :=
  match lang with
  | .it => "Questo PDF ha **" ++ toString total ++ " pagine**."
  | .en => "This PDF has **" ++ toString total ++ " pages**."
  | .pt => "Este PDF possui **" ++ toString total ++ " páginas**."

/-- The `nome_pdf` reply (iniciar_assistente lines 747-753). -/
def resposta_nome_pdf (lang : LangCode) (file_name : String) : String :=
  match lang with
  | .it => "Il nome del file è **" ++ file_name ++ "**."
  | .en => "The file name is **" ++ file_name ++ "**."
  | .pt => "O nome do arquivo é **" ++ file_name ++ "**."

/-- The initial greeting of Dana (iniciar_assistente lines 589-607). -/
def first_msg (lang : LangCode) (file_name : String) : String :=
  match lang with
  | .it => "Ciao, io sono **Dana** 👋\n\nSono qui per aiutarti con tutte le tue domande su **"
      ++ file_name ++ "**.\n\nPer cominciare, come posso chiamarti?"
  | .en => "Hi, I\x27m **Dana** 👋\n\nI\x27m here to help you with any questions about **"
      ++ file_name ++ "**.\n\nTo get started, how should I call you?"
  | .pt => "Olá, eu sou a **Dana** 👋\n\nEstou aqui para tirar todas as suas dúvidas sobre **"
      ++ file_name ++ "**.\n\nPara começar, como posso te chamar?"

/-- The reply of the name-capture turn (iniciar_assistente lines 641-663),
with the named and the nameless variant. -/
def reply_nome (lang : LangCode) (nome_extraido file_name : String) : String :=
  if nome_extraido ≠ "" then
    match lang with
    | .it => nome_extraido
        ++ ", perfetto! Ora puoi chiedermi qualsiasi dubbio che hai su **"
        ++ file_name ++ "**. Scrivi pure la tua prima domanda quando vuoi. 🙂"
    | .en => nome_extraido
        ++ ", great! Now you can ask me any question you have about **"
        ++ file_name ++ "**. Type your first question whenever you\x27re ready. 🙂"
    | .pt => nome_extraido
        ++ ", perfeito! Agora você pode me perguntar qualquer coisa sobre **"
        ++ file_name ++ "**. Escreve sua primeira pergunta quando quiser. 🙂"
  else
    match lang with
    | .it => "Perfetto! Ora puoi scrivermi la tua prima domanda sul PDF. 🙂"
    | .en => "Great! Now you can type your first question about the PDF. 🙂"
    | .pt => "Perfeito! Agora você pode escrever sua primeira pergunta sobre o PDF. 🙂"

/-- The default question text installed by the page-navigation button
(`f"pagina {page_num}"` unless the language is English). -/
def default_page_q (lang : LangCode) (page_num : Int) : String :=
  if lang = .en then ("page ") ++ toString page_num else ("pagina ") ++ toString page_num

def default_doc_q : LangCode → String
  | .pt => "resumo do documento"
  | .it => "riassunto del documento"
  | .en => "document summary"

def default_gloss_q : LangCode → String
  | .pt => "glossário"
  | .it => "glossario"
  | .en => "glossary"

def default_plan_q : LangCode → String
  | .pt => "plano de estudo"
  | .it => "piano di studio"
  | .en => "study plan"

def default_exs_q : LangCode → String
  | .pt => "exercícios"
  | .it => "esercizi"
  | .en => "exercises"

/-! ## The chat turn (`iniciar_assistente`, app/chat/assistente_dana.py)

One synchronous Streamlit run with a user interaction is modelled as a pure
function from the session state and the widget inputs to a `TurnResult`.
Pure rendering (subtitle, sidebar captions, history display) has no effect
on state or outcome and is not represented; the theme detector feeds only
the LLM prompt and is likewise outside the modelled outcomes.  The LLM is
external: `llm_init_ok` models whether `make_llm()` succeeds and
`llm_resposta` is the oracle for `chain.invoke` (which on failure already
yields the `"Model call failed: ..."` text inside the try/except
of the source). -/

structure SessionState where
  app_lang : LangCode
  user_name : String
  chat_history : List (String × String)
  initial_greeting_done : Bool
deriving DecidableEq, Repr

structure TurnInput where
  chat_input : Option String
  go_btn : Bool
  page_num : Int
  bt_res_pag : Bool
  bt_res_doc : Bool
  bt_gloss : Bool
  bt_faq : Bool
  bt_plano : Bool
  bt_exs : Bool
deriving DecidableEq, Repr

inductive QuickTask where
  | resumo_pagina
  | resumo_documento
  | glossario
  | faq
  | plano_estudo
  | exercicios
deriving DecidableEq, Repr

inductive TurnOutcome where
  | errorNotIndexed
  | errorNoPages
  | nameCapture (nome reply : String)
  | noInput
  | pageCount (total : Nat) (reply : String)
  | fileNamed (nome reply : String)
  | pageNotExist (page : Int) (total : Nat) (msg : String)
  | notFound (msg : String)
  | llmInitError
  | answered (contexto resposta : String) (citations : List (Option Int × String))
deriving DecidableEq, Repr

structure TurnResult where
  outcome : TurnOutcome
  state : SessionState
deriving DecidableEq, Repr

/-- Append one `{role, content}` turn to the chat history. -/
def push_msg (st : SessionState) (role content : String) : SessionState :=
  { st with chat_history := st.chat_history ++ [(role, content)] }

/-- Lines 526-527: adopt the caller-supplied name only when the session has
none. -/
def apply_nome (nome_usuario : String) (st : SessionState) : SessionState :=
  if nome_usuario ≠ "" ∧ st.user_name = "" then { st with user_name := nome_usuario }
  else st

/-- Lines 589-614: record the initial greeting once per session. -/
def saudacao_inicial (file_name : String) (st : SessionState) : SessionState :=
  if st.initial_greeting_done then st
  else
    { push_msg st ("assistant") (first_msg st.app_lang file_name) with
      initial_greeting_done := true }

/-- `Path(p).name`: the final component after the last slash. -/
def path_name (p : String) : String :=
  ⟨(p.data.reverse.takeWhile (fun c => c ≠ '/')).reverse⟩

/-- Lines 542-551: `metadata.get("source") or Path(metadata.get("file_path",
"")).name or "PDF"` on the first page unit. -/
def file_name_of (docs_paginas : List Document) : String :=
  match docs_paginas with
  | [] => "PDF"
  | d :: _ =>
    let s := d.metadata.source.getD ("")
    if s ≠ "" then s
    else
      let pn := path_name (d.metadata.file_path.getD (""))
      if pn ≠ "" then pn else ("PDF")

/-- Python truthiness of an optional string. -/
def opt_truthy : Option String → Bool
  | none => false
  | some s => s ≠ ""

/-- `if not pergunta: pergunta = d`. -/
def or_default (pergunta : Option String) (d : String) : Option String :=
  if opt_truthy pergunta then pergunta else some d

/-- The quick-task routing state after lines 672-723. -/
structure Roteado where
  quick : Option QuickTask
  pagina_forcada : Option Int
  pergunta : Option String
deriving DecidableEq, Repr

/-- Lines 676-723: the page-navigation button and the quick-task button
chain. -/
def rotear_botoes (lang : LangCode) (inp : TurnInput) (pergunta0 : Option String) :
    Roteado :=
  let par :=
    if inp.go_btn then
      (some (inp.page_num - 1), some (default_page_q lang inp.page_num))
    else ((none : Option Int), pergunta0)
  let pf1 := par.1
  let pergunta1 := par.2
  if inp.bt_res_pag then
    ⟨some .resumo_pagina, some (inp.page_num - 1),
     or_default pergunta1 (default_page_q lang inp.page_num)⟩
  else if inp.bt_res_doc then
    ⟨some .resumo_documento, pf1, or_default pergunta1 (default_doc_q lang)⟩
  else if inp.bt_gloss then
    ⟨some .glossario, pf1, or_default pergunta1 (default_gloss_q lang)⟩
  else if inp.bt_faq then
    ⟨some .faq, pf1, or_default pergunta1 ("faq")⟩
  else if inp.bt_plano then
    ⟨some .plano_estudo, pf1, or_default pergunta1 (default_plan_q lang)⟩
  else if inp.bt_exs then
    ⟨some .exercicios, pf1, or_default pergunta1 (default_exs_q lang)⟩
  else ⟨none, pf1, pergunta1⟩

/-- Lines 632-670: the name-capture turn taken whenever a chat message
arrives while the session user name is empty. -/
def turno_nome (lang : LangCode) (file_name q : String) (st : SessionState) :
    TurnResult :=
  let nome_extraido := extrair_primeiro_nome q
  let st1 := if nome_extraido ≠ "" then { st with user_name := nome_extraido } else st
  let st2 := push_msg st1 ("user") q
  let reply := reply_nome lang nome_extraido file_name
  ⟨.nameCapture nome_extraido reply, push_msg st2 ("assistant") reply⟩

/-- Lines 783-862: the tail of the turn after the out-of-range check — the
empty/blank-context guard, compaction, the LLM call and the surfaced
citations. -/
def continuar_turno (lang : LangCode) (docs : List Document)
    (info : List (Option Int × String)) (llm_init_ok : Bool) (llm_resposta : String)
    (st : SessionState) : TurnResult :=
  if docs = [] ∨ tem_texto docs = false then
    let msg := ui_not_found lang
    ⟨.notFound msg, push_msg st ("assistant") msg⟩
  else
    let contexto := compactar_docs docs 5200
    if llm_init_ok = false then ⟨.llmInitError, st⟩
    else
      ⟨.answered contexto llm_resposta (info.map display_cite),
       push_msg st ("assistant") llm_resposta⟩

/-- Lines 762-862, the normal-question tail of the turn: historize the user
message, assemble the context, run the out-of-range guard, and hand over to
`continuar_turno`. -/
def turno_normal (lang : LangCode) (docs_paginas : List Document) (retr : Retriever)
    (pergunta : Option String) (pagina_forcada : Option Int)
    (llm_init_ok : Bool) (llm_resposta : String) (st2 : SessionState) : TurnResult :=
  let st3 := push_msg st2 ("user") ("(" ++ st2.user_name ++ ") " ++ pergunta.getD (""))
  let m := montar_contexto pergunta docs_paginas retr 6 1 pagina_forcada
    (word_page_patterns lang)
  match m.2.2 with
  | some p =>
    if p < 0 ∨ (docs_paginas.length : Int) ≤ p then
      let msg := ui_page_not_exist lang (p + 1) docs_paginas.length
      ⟨.pageNotExist (p + 1) docs_paginas.length msg, push_msg st3 ("assistant") msg⟩
    else continuar_turno lang m.1 m.2.1 llm_init_ok llm_resposta st3
  | none => continuar_turno lang m.1 m.2.1 llm_init_ok llm_resposta st3

/-- Embeds the per-turn logic of `iniciar_assistente` (app/chat/
assistente_dana.py, lines 512-862).  The `k`/`incluir_vizinhas` parameters
are overwritten with the fixed values 6 and 1 exactly as in lines 523-524.
The sidebar clear-history button aborts the run via `st.rerun()` before any
chat processing and is orthogonal to the modelled turn. -/
def iniciar_assistente (vectordb : Option Retriever) (docs_paginas : List Document)
    (nome_usuario : String) (k incluir_vizinhas : Nat) (inp : TurnInput)
    (llm_init_ok : Bool) (llm_resposta : String) (st0 : SessionState) : TurnResult :=
  let _ := k
  let _ := incluir_vizinhas
  let st1 := apply_nome nome_usuario st0
  let lang := st1.app_lang
  match vectordb with
  | none => ⟨.errorNotIndexed, st1⟩
  | some retr =>
    if docs_paginas = [] then ⟨.errorNoPages, st1⟩
    else
      let file_name := file_name_of docs_paginas
      let st2 := saudacao_inicial file_name st1
      let pergunta := inp.chat_input
      if opt_truthy pergunta = true ∧ st2.user_name = "" then
        turno_nome lang file_name (pergunta.getD ("")) st2
      else
        let r := rotear_botoes lang inp pergunta
        if opt_truthy r.pergunta = false ∧ r.quick = none then ⟨.noInput, st2⟩
        else
          let intencao := detectar_intencao (r.pergunta.getD (""))
          if intencao = "contar_paginas" then
            let resposta := resposta_total_paginas lang docs_paginas.length
            ⟨.pageCount docs_paginas.length resposta, push_msg st2 ("assistant") resposta⟩
          else if intencao = "nome_pdf" then
            let resposta := resposta_nome_pdf lang file_name
            ⟨.fileNamed file_name resposta, push_msg st2 ("assistant") resposta⟩
          else
            turno_normal lang docs_paginas retr r.pergunta r.pagina_forcada
              llm_init_ok llm_resposta st2

/-- Does a turn outcome involve a completed LLM round trip?  Only the
`answered` branch reaches `chain.invoke`. -/
def llm_called : TurnOutcome → Bool
  | .answered _ _ _ => true
  | _ => false

/-! ## Indexing (`indexar_pdf` of app/utils/pdf_index.py and
app/utils/rag/retriever.py; `get_embeddings` of app/utils/rag/embeddings.py)

Both pipeline generations share one structure: a try/except around the
`OpenAIEmbeddings(...)` constructor only, then an unguarded
`InMemoryVectorStore.from_documents` (where the embedding HTTP requests
actually run) on the semantic path, and a BM25 retriever on the fallback
path.  The environment models the three failure switches. -/

structure EmbedEnv where
  openai_api_key : Option String
  ctor_raises : Bool
  embed_call_raises : Bool
deriving DecidableEq, Repr

inductive EmbedClient where
  | mk
deriving DecidableEq, Repr

/-- Embeds `get_embeddings` / `_tentar_embeddings`: `None` without a truthy
`OPENAI_API_KEY`; constructor exceptions are swallowed into `None`. -/
def get_embeddings (env : EmbedEnv) : Option EmbedClient :=
  if opt_truthy env.openai_api_key then
    if env.ctor_raises then none else some .mk
  else none

inductive IndexKind where
  | semantic
  | bm25
deriving DecidableEq, Repr

structure BuiltIndex where
  kind : IndexKind
  chunks : List Document
deriving DecidableEq, Repr

/-- The result of `indexar_pdf`: the returned tuple, or a propagated
exception. -/
inductive PdfIndexResult where
  | ok (retriever : BuiltIndex) (n_pages n_chunks : Nat) (docs_paginas : List Document)
  | raised
deriving DecidableEq, Repr

/-- Embeds `indexar_pdf` given the loaded pages and chunks (loader and
splitter are external library calls).  On the semantic path the embedding
requests inside `from_documents` run outside any try/except, so their
failure propagates. -/
def indexar_pdf (env : EmbedEnv) (docs_paginas chunks : List Document) :
    PdfIndexResult :=
  match get_embeddings env with
  | some _ =>
    if env.embed_call_raises then .raised
    else .ok ⟨.semantic, chunks⟩ docs_paginas.length chunks.length docs_paginas
  | none => .ok ⟨.bm25, chunks⟩ docs_paginas.length chunks.length docs_paginas

/-! ## Upload handling (app/main.py, lines 70-101) -/

structure MainState where
  app_lang : LangCode
  user_name : String
  chat_history : List (String × String)
  initial_greeting_done : Bool
  vectordb_key : Option String
  vectordb : Option BuiltIndex
  docs_paginas : List Document
deriving DecidableEq, Repr

/-- Embeds the upload block of `app/main.py`: `cache_key` is the SHA-256 hex
digest of the uploaded bytes; `need_index` compares it with the stored key;
on re-indexing the conversation state is reset first and the index triple is
written only after `indexar_pdf` returns.  An exception from `indexar_pdf`
aborts the Streamlit run, leaving the mutations made so far in the session. -/
def handle_upload (env : EmbedEnv) (docs_pages chunks : List Document)
    (cache_key : String) (st : MainState) : MainState :=
  let need_index := st.vectordb_key ≠ some cache_key
  if need_index then
    let st1 := { st with chat_history := [], initial_greeting_done := false,
                         user_name := "" }
    match indexar_pdf env docs_pages chunks with
    | .ok retriever _ _ docs =>
      { st1 with vectordb := some retriever, docs_paginas := docs,
                 vectordb_key := some cache_key }
    | .raised => st1
  else st

/-! ## Helper lemmas -/

/-- The accumulated character count in the loop of `_compactar_docs` never passes
the budget: a part is appended only while `total + len(t) ≤ limite`. -/
theorem compactar_go_le (limite : Nat) :
    ∀ (docs : List Document) (total : Nat), total ≤ limite →
      total + partesTotalLen (compactar_partes_go limite docs total) ≤ limite := by
  intro docs
  induction docs with
  | nil =>
    intro total h
    simpa [compactar_partes_go, partesTotalLen] using h
  | cons d rest ih =>
    intro total h
    rw [compactar_partes_go]
    by_cases ht : pyStrip d.page_content = ""
    · simpa [ht] using ih total h
    · by_cases hl : limite < total + (pyStrip d.page_content).length
      · simpa [ht, hl, partesTotalLen] using h
      · have h2 := ih (total + (pyStrip d.page_content).length) (by omega)
        simp only [ht, hl, if_neg, if_false, ite_false]
        simp only [partesTotalLen, List.map_cons, List.sum_cons] at h2 ⊢
        omega

/-- Every part kept by `_compactar_docs` is a whole stripped unit text, and
the kept parts appear in the original unit order. -/
theorem compactar_go_sublist (limite : Nat) :
    ∀ (docs : List Document) (total : Nat),
      (compactar_partes_go limite docs total).Sublist
        (docs.map (fun d => pyStrip d.page_content)) := by
  intro docs
  induction docs with
  | nil => intro total; simp [compactar_partes_go]
  | cons d rest ih =>
    intro total
    by_cases ht : pyStrip d.page_content = ""
    · have he : compactar_partes_go limite (d :: rest) total
          = compactar_partes_go limite rest total := by
        rw [compactar_partes_go]
        simp [ht]
      rw [he, List.map_cons]
      exact (ih total).cons _
    · by_cases hl : limite < total + (pyStrip d.page_content).length
      · have he : compactar_partes_go limite (d :: rest) total = [] := by
          rw [compactar_partes_go]
          simp [ht, hl]
        rw [he]
        exact List.nil_sublist _
      · have he : compactar_partes_go limite (d :: rest) total
            = pyStrip d.page_content
              :: compactar_partes_go limite rest (total + (pyStrip d.page_content).length) := by
          rw [compactar_partes_go]
          simp [ht, hl]
        rw [he, List.map_cons]
        exact (ih (total + (pyStrip d.page_content).length)).cons₂ _

/-- No pattern matches the empty normalized question. -/
theorem first_pattern_match_vazio (patts : List PagePattern) :
    first_pattern_match patts (normalizeStr (pyLower (""))) = none := by
  induction patts with
  | nil => rfl
  | cons p rest ih =>
    rw [first_pattern_match]
    have h : searchPattern p (normalizeStr (pyLower (""))) = none := rfl
    rw [h]
    exact ih

/-- The citation list built by `_montar_contexto` is always the map of
`cite_of` over the context docs it returns. -/
theorem montar_info_map (pergunta : Option String) (docs_paginas : List Document)
    (retr : Retriever) (k : Nat) (viz : Int) (pagina_forcada : Option Int)
    (patts : List PagePattern) :
    (montar_contexto pergunta docs_paginas retr k viz pagina_forcada patts).2.1
      = (montar_contexto pergunta docs_paginas retr k viz pagina_forcada patts).1.map
          cite_of := by
  unfold montar_contexto
  cases pagina_resolvida pergunta pagina_forcada patts with
  | none => rfl
  | some p =>
    by_cases h : 0 ≤ p ∧ p < (docs_paginas.length : Int)
    · simp [h]
    · simp [h]

/-- A caller-supplied name never overwrites a non-empty session name. -/
theorem apply_nome_nomeado (nome : String) (st : SessionState)
    (h : st.user_name ≠ "") : apply_nome nome st = st := by
  unfold apply_nome
  rw [if_neg]
  rintro ⟨-, h2⟩
  exact h h2

/-- The greeting touches only the history and the greeting flag. -/
theorem saudacao_user_name (f : String) (st : SessionState) :
    (saudacao_inicial f st).user_name = st.user_name := by
  unfold saudacao_inicial push_msg
  split <;> rfl

theorem saudacao_app_lang (f : String) (st : SessionState) :
    (saudacao_inicial f st).app_lang = st.app_lang := by
  unfold saudacao_inicial push_msg
  split <;> rfl

/-- With no button pressed the routing leaves the typed question alone. -/
theorem rotear_sem_botoes (lang : LangCode) (ci : Option String) (pn : Int)
    (p0 : Option String) :
    rotear_botoes lang ⟨ci, false, pn, false, false, false, false, false, false⟩ p0
      = ⟨none, none, p0⟩ := rfl

/-- Routing of a plain typed question (no buttons, non-empty chat input,
named user, `normal` intent): the turn reaches `turno_normal` with the typed
question and no forced page. -/
theorem iniciar_roteia_normal (retr : Retriever) (docs_paginas : List Document)
    (nome_usuario : String) (kk vv : Nat) (q : String) (pn : Int)
    (llm_init_ok : Bool) (llm_resposta : String) (st0 : SessionState)
    (hq : q ≠ "") (hnome : st0.user_name ≠ "") (hdocs : docs_paginas ≠ [])
    (hint : detectar_intencao q = "normal") :
    iniciar_assistente (some retr) docs_paginas nome_usuario kk vv
      ⟨some q, false, pn, false, false, false, false, false, false⟩
      llm_init_ok llm_resposta st0
    = turno_normal st0.app_lang docs_paginas retr (some q) none llm_init_ok llm_resposta
        (saudacao_inicial (file_name_of docs_paginas) st0) := by
  unfold iniciar_assistente
  rw [apply_nome_nomeado _ _ hnome]
  simp only []
  rw [if_neg hdocs]
  rw [if_neg (by
    rintro ⟨-, h2⟩
    rw [saudacao_user_name] at h2
    exact hnome h2)]
  rw [rotear_sem_botoes]
  rw [if_neg (by
    rintro ⟨h1, -⟩
    simp [opt_truthy, hq] at h1)]
  simp only [Option.getD_some]
  rw [hint]
  rw [if_neg (by decide), if_neg (by decide)]

/-- `_montar_contexto` on a question that resolves (via the page-reference
patterns) to page `p`. -/
theorem montar_extrai (q : String) (patts : List PagePattern)
    (docs_paginas : List Document) (retr : Retriever) (k : Nat) (viz p : Int)
    (hq : q ≠ "") (hex : extrair_pagina q patts = some p) :
    montar_contexto (some q) docs_paginas retr k viz none patts
      = if 0 ≤ p ∧ p < (docs_paginas.length : Int) then
          (contexto_por_pagina docs_paginas p viz,
           (contexto_por_pagina docs_paginas p viz).map cite_of, some p)
        else ([], [], some p) := by
  have hres : pagina_resolvida (some q) none patts = some p := by
    show (if q ≠ "" then extrair_pagina q patts else none) = some p
    rw [if_pos hq, hex]
  unfold montar_contexto
  rw [hres]

/-! ## Claim C1 -/

/-- Claim C1 counterexample: the loop of `_compactar_docs` counts only the
unit texts, not the 7-character `"\n\n---\n\n"` separators it later joins
with, so two 5-character units under a 10-character budget are both kept
and produce a 17-character string, past the budget. -/
theorem compactar_docs_excede_orcamento :
    ¬ ((compactar_docs
        [⟨"aaaaa", ⟨some 0, some ("a.pdf"), some ("/a.pdf")⟩⟩,
         ⟨"bbbbb", ⟨some 1, some ("a.pdf"), some ("/a.pdf")⟩⟩] 10).length ≤ 10)
    ∧ compactar_docs
        [⟨"aaaaa", ⟨some 0, some ("a.pdf"), some ("/a.pdf")⟩⟩,
         ⟨"bbbbb", ⟨some 1, some ("a.pdf"), some ("/a.pdf")⟩⟩] 10
      = "aaaaa\n\n---\n\nbbbbb"
    ∧ (compactar_docs
        [⟨"aaaaa", ⟨some 0, some ("a.pdf"), some ("/a.pdf")⟩⟩,
         ⟨"bbbbb", ⟨some 1, some ("a.pdf"), some ("/a.pdf")⟩⟩] 10).length = 17
    ∧ ("\n\n---\n\n" : String).length = 7 := by
  decide

/-- Claim C1 (amended): the accumulated character count of the units kept by
`_compactar_docs` never exceeds the budget, the kept parts are whole
(stripped) unit texts in their original order, and the returned string is
those parts joined with the fixed 7-character separator, whose characters
are not counted against the budget. -/
theorem compactar_docs_orcamento :
    ∀ (docs : List Document) (limite : Nat),
      partesTotalLen (compactar_partes docs limite) ≤ limite
      ∧ (compactar_partes docs limite).Sublist
          (docs.map (fun d => pyStrip d.page_content))
      ∧ compactar_docs docs limite
          = String.intercalate ("\n\n---\n\n") (compactar_partes docs limite) := by
  intro docs limite
  refine ⟨?_, compactar_go_sublist limite docs 0, rfl⟩
  simpa using compactar_go_le limite docs 0 (Nat.zero_le _)

/-! ## Claim C2 -/

/-- Claim C2: with a credential present and a healthy constructor, a runtime
failure of the embedding requests inside `InMemoryVectorStore.from_documents`
propagates out of `indexar_pdf` (no BM25 fallback), because only the
`OpenAIEmbeddings(...)` constructor is inside a try/except; without a
credential the BM25 fallback over the same chunks is returned. -/
theorem indexar_pdf_propaga_falha_embedding :
    indexar_pdf ⟨some ("sk-test"), false, true⟩
        [⟨"hello", ⟨some 0, some ("a.pdf"), some ("/a.pdf")⟩⟩]
        [⟨"hello", ⟨some 0, some ("a.pdf"), some ("/a.pdf")⟩⟩]
      = .raised
    ∧ indexar_pdf ⟨none, false, false⟩
        [⟨"hello", ⟨some 0, some ("a.pdf"), some ("/a.pdf")⟩⟩]
        [⟨"hello", ⟨some 0, some ("a.pdf"), some ("/a.pdf")⟩⟩]
      = .ok ⟨.bm25, [⟨"hello", ⟨some 0, some ("a.pdf"), some ("/a.pdf")⟩⟩]⟩ 1 1
          [⟨"hello", ⟨some 0, some ("a.pdf"), some ("/a.pdf")⟩⟩] := by
  decide

/-! ## Claim C4 -/

/-- Claim C4: `_extrair_pagina` returns `max(n - 1, 0)` for the number `n`
captured by the first matching pattern on the normalized lower-cased
question and `None` when no pattern matches; `"see page 10"` (en) resolves
to 9, `"pagina 3"` (it and pt) to 2, and a question with no page reference
to `None`. -/
theorem extrair_pagina_ok :
    (∀ (q : String) (patts : List PagePattern),
        extrair_pagina q patts
          = (first_pattern_match patts (normalizeStr (pyLower q))).map
              (fun n => max ((n : Int) - 1) 0))
    ∧ extrair_pagina ("see page 10") (word_page_patterns .en) = some 9
    ∧ extrair_pagina ("pagina 3") (word_page_patterns .it) = some 2
    ∧ extrair_pagina ("pagina 3") (word_page_patterns .pt) = some 2
    ∧ extrair_pagina ("what is a turbine?") (word_page_patterns .en) = none := by
  refine ⟨?_, by decide, by decide, by decide, by decide⟩
  intro q patts
  by_cases hq : q = ""
  · subst hq
    rw [extrair_pagina, if_pos rfl, first_pattern_match_vazio]
    rfl
  · rw [extrair_pagina, if_neg hq]
    cases h : first_pattern_match patts (normalizeStr (pyLower q)) <;> simp [h]

/-! ## Claim C5 -/

/-- Claim C5 counterexample: `"Hi, I\x27m Jonas, nice to meet you"` does not
yield `"Jonas"` (the apostrophe is not among the stripped punctuation and
`"i am"` does not occur in `"i\x27m"`, so the first non-stop-word token is
`"I\x27m"`), and `"ciao"` alone does not yield `""` (when every token is a
stop-word the source falls back to `partes[0]`). -/
theorem extrair_primeiro_nome_contraexemplo :
    extrair_primeiro_nome ("Hi, I\x27m Jonas, nice to meet you") ≠ "Jonas"
    ∧ extrair_primeiro_nome ("ciao") ≠ "" := by
  decide

/-- Claim C5 (amended): `_extrair_primeiro_nome` strips the listed
punctuation (not apostrophes), splits into words, skips greeting stop-words
and returns the first remaining token; when every token is a stop-word it
returns the first token rather than the empty string, so `"Hi, I\x27m Jonas,
nice to meet you"` yields `"I\x27m"` and `"ciao"` alone yields `"ciao"`; the
empty string is returned only when no token exists at all. -/
theorem extrair_primeiro_nome_corrigido :
    extrair_primeiro_nome ("Hi, I\x27m Jonas, nice to meet you") = "I\x27m"
    ∧ extrair_primeiro_nome ("ciao") = "ciao"
    ∧ extrair_primeiro_nome ("Olá, me chamo Jonas, tudo bem?") = "Jonas"
    ∧ (∀ (s w : String) (ws : List String), s ≠ "" → ex_partes s = w :: ws →
        extrair_primeiro_nome s
          = pyStrip (((w :: ws).find?
              (fun t => !(stopwords_iniciais.contains (pyLower t)))).getD w))
    ∧ (∀ s : String, s ≠ "" → ex_partes s = [] → extrair_primeiro_nome s = "") := by
  refine ⟨by decide, by decide, by decide, ?_, ?_⟩
  · intro s w ws hs hp
    have hred : extrair_primeiro_nome s
        = match (w :: ws).find? (fun t => !(stopwords_iniciais.contains (pyLower t))) with
          | some t => pyStrip t
          | none => pyStrip w := by
      rw [extrair_primeiro_nome, if_neg hs, hp]
    rw [hred]
    cases h : (w :: ws).find? (fun t => !(stopwords_iniciais.contains (pyLower t))) <;> rfl
  · intro s hs hp
    rw [extrair_primeiro_nome, if_neg hs, hp]

/-- Claim C5 witness: the amended description applied to the concrete input
`"ciao"`. -/
theorem extrair_primeiro_nome_corrigido_witness :
    extrair_primeiro_nome ("ciao")
      = pyStrip ((["ciao"].find?
          (fun t => !(stopwords_iniciais.contains (pyLower t)))).getD ("ciao")) :=
  extrair_primeiro_nome_corrigido.2.2.2.1 ("ciao") "ciao" [] (by decide) (by decide)

/-! ## Claim C6 -/

/-- Claim C6: re-uploading bytes with the cached hash leaves the whole
session untouched, but when the indexing of a different upload raises, the upload
handler has already cleared the conversation state while the index triple
(`vectordb`, `docs_paginas`, `vectordb_key`) still belongs to the previous
document — the swap is not all-or-nothing. -/
theorem handle_upload_meia_atualizacao :
    handle_upload ⟨some ("sk-test"), false, true⟩
        [⟨"beta", ⟨some 0, some ("b.pdf"), some ("/b.pdf")⟩⟩]
        [⟨"beta", ⟨some 0, some ("b.pdf"), some ("/b.pdf")⟩⟩] "k1"
        ⟨.en, "Ana", [("assistant", "hi")], true, some ("k1"),
         some ⟨.semantic, [⟨"alpha", ⟨some 0, some ("a.pdf"), some ("/a.pdf")⟩⟩]⟩,
         [⟨"alpha", ⟨some 0, some ("a.pdf"), some ("/a.pdf")⟩⟩]⟩
      = ⟨.en, "Ana", [("assistant", "hi")], true, some ("k1"),
         some ⟨.semantic, [⟨"alpha", ⟨some 0, some ("a.pdf"), some ("/a.pdf")⟩⟩]⟩,
         [⟨"alpha", ⟨some 0, some ("a.pdf"), some ("/a.pdf")⟩⟩]⟩
    ∧ handle_upload ⟨some ("sk-test"), false, true⟩
        [⟨"beta", ⟨some 0, some ("b.pdf"), some ("/b.pdf")⟩⟩]
        [⟨"beta", ⟨some 0, some ("b.pdf"), some ("/b.pdf")⟩⟩] "k2"
        ⟨.en, "Ana", [("assistant", "hi")], true, some ("k1"),
         some ⟨.semantic, [⟨"alpha", ⟨some 0, some ("a.pdf"), some ("/a.pdf")⟩⟩]⟩,
         [⟨"alpha", ⟨some 0, some ("a.pdf"), some ("/a.pdf")⟩⟩]⟩
      = ⟨.en, "", [], false, some ("k1"),
         some ⟨.semantic, [⟨"alpha", ⟨some 0, some ("a.pdf"), some ("/a.pdf")⟩⟩]⟩,
         [⟨"alpha", ⟨some 0, some ("a.pdf"), some ("/a.pdf")⟩⟩]⟩ := by
  decide

/-- `range(start, start + cnt)` indexing into a list is the drop/take slice,
as long as every produced index is in bounds. -/
theorem range'_map_getD {α : Type _} [Inhabited α] (l : List α) :
    ∀ (cnt lo : Nat), lo + cnt ≤ l.length →
      (List.range' lo cnt).map (fun i => l.getD i default) = (l.drop lo).take cnt := by
  intro cnt
  induction cnt with
  | zero => intro lo h; simp
  | succ n ih =>
    intro lo h
    have hlo : lo < l.length := by omega
    rw [List.range'_succ lo n 1, List.map_cons, List.drop_eq_getElem_cons hlo,
        List.take_succ_cons]
    congr 1
    · rw [List.getD_eq_getElem?_getD, List.getElem?_eq_getElem hlo]
      rfl
    · exact ih (lo + 1) (by omega)

/-- When the context is empty or all-blank, `continuar_turno` returns the
fixed "not found" message without reaching compaction or the LLM. -/
theorem continuar_turno_vazio (lang : LangCode) (docs : List Document)
    (info : List (Option Int × String)) (llm_init_ok : Bool) (llm_resposta : String)
    (st : SessionState) (h : docs = [] ∨ tem_texto docs = false) :
    continuar_turno lang docs info llm_init_ok llm_resposta st
      = ⟨.notFound (ui_not_found lang), push_msg st ("assistant") (ui_not_found lang)⟩ := by
  unfold continuar_turno
  rw [if_pos h]

/-- With usable context and a healthy LLM initialization, `continuar_turno`
answers with the compacted context and the displayed citations. -/
theorem continuar_turno_responde (lang : LangCode) (docs : List Document)
    (info : List (Option Int × String)) (llm_resposta : String) (st : SessionState)
    (hne : docs ≠ []) (htx : tem_texto docs = true) :
    continuar_turno lang docs info true llm_resposta st
      = ⟨.answered (compactar_docs docs 5200) llm_resposta (info.map display_cite),
         push_msg st ("assistant") llm_resposta⟩ := by
  unfold continuar_turno
  rw [if_neg (by
    rintro (h | h)
    · exact hne h
    · rw [htx] at h
      cases h)]
  rw [if_neg (by decide)]

/-! ## Claim C3 -/

/-- Claim C3: for a resolved page outside `[0, N)`, `_montar_contexto`
returns empty context and citations with the resolved page (no clamping, no
fall-through to retrieval — the result does not consult the retriever), and
the calling turn replies with the "page does not exist" message carrying the
1-based page and the total page count. -/
theorem pagina_fora_do_intervalo (docs_paginas : List Document) (retr : Retriever)
    (k : Nat) (viz p : Int) (patts : List PagePattern) (pergunta : Option String)
    (nome_usuario q llm_resposta : String) (llm_init_ok : Bool) (pn : Int)
    (kk vv : Nat) (st0 : SessionState)
    (hfora : p < 0 ∨ (docs_paginas.length : Int) ≤ p)
    (hq : q ≠ "") (hnome : st0.user_name ≠ "") (hdocs : docs_paginas ≠ [])
    (hint : detectar_intencao q = "normal")
    (hex : extrair_pagina q (word_page_patterns st0.app_lang) = some p) :
    montar_contexto pergunta docs_paginas retr k viz (some p) patts = ([], [], some p)
    ∧ (iniciar_assistente (some retr) docs_paginas nome_usuario kk vv
        ⟨some q, false, pn, false, false, false, false, false, false⟩
        llm_init_ok llm_resposta st0).outcome
      = .pageNotExist (p + 1) docs_paginas.length
          (ui_page_not_exist st0.app_lang (p + 1) docs_paginas.length) := by
  have hnat : ¬ (0 ≤ p ∧ p < (docs_paginas.length : Int)) := by
    rcases hfora with h | h
    · intro hc; omega
    · intro hc; omega
  constructor
  · unfold montar_contexto
    have hres : pagina_resolvida pergunta (some p) patts = some p := rfl
    rw [hres]
    simp [hnat]
  · rw [iniciar_roteia_normal retr docs_paginas nome_usuario kk vv q pn
        llm_init_ok llm_resposta st0 hq hnome hdocs hint]
    unfold turno_normal
    rw [montar_extrai q (word_page_patterns st0.app_lang) docs_paginas retr 6 1 p hq hex,
        if_neg hnat]
    simp only []
    rw [if_pos hfora]

/-- Claim C3 witness: asking `"page 99"` of a 2-page document. -/
theorem pagina_fora_do_intervalo_witness :
    montar_contexto (some ("page 99"))
        [⟨"hello", ⟨some 0, some ("doc.pdf"), some ("/tmp/doc.pdf")⟩⟩,
         ⟨"world", ⟨some 1, some ("doc.pdf"), some ("/tmp/doc.pdf")⟩⟩]
        (fun _ => []) 6 1 (some 98) (word_page_patterns .en)
      = ([], [], some 98)
    ∧ (iniciar_assistente (some (fun _ => []))
        [⟨"hello", ⟨some 0, some ("doc.pdf"), some ("/tmp/doc.pdf")⟩⟩,
         ⟨"world", ⟨some 1, some ("doc.pdf"), some ("/tmp/doc.pdf")⟩⟩]
        "" 5 1 ⟨some ("page 99"), false, 1, false, false, false, false, false, false⟩
        true ("resp") ⟨.en, "Bob", [], true⟩).outcome
      = .pageNotExist 99 2 (ui_page_not_exist .en 99 2) :=
  pagina_fora_do_intervalo
    [⟨"hello", ⟨some 0, some ("doc.pdf"), some ("/tmp/doc.pdf")⟩⟩,
     ⟨"world", ⟨some 1, some ("doc.pdf"), some ("/tmp/doc.pdf")⟩⟩]
    (fun _ => []) 6 1 98 (word_page_patterns .en) (some ("page 99"))
    "" "page 99" "resp" true 1 5 1 ⟨.en, "Bob", [], true⟩
    (Or.inr (by decide)) (by decide) (by decide) (by decide) (by decide) (by decide)

/-! ## Claim C8 -/

/-- Claim C8: for an in-range resolved page and neighbor radius `r ≥ 0`, the
page-direct context is exactly the contiguous slice of page units from
`max(p - r, 0)` to `min(p + r, N - 1)` inclusive, in page order, and
`_montar_contexto` attaches exactly one metadata citation per included
unit. -/
theorem contexto_por_pagina_fatia (docs : List Document) (p r : Int)
    (pergunta : Option String) (retr : Retriever) (k : Nat)
    (patts : List PagePattern)
    (h0 : 0 ≤ p) (h1 : p < (docs.length : Int)) (hr : 0 ≤ r) :
    contexto_por_pagina docs p r
      = (docs.drop (max (p - r) 0).toNat).take
          ((min (p + r) ((docs.length : Int) - 1)) + 1 - max (p - r) 0).toNat
    ∧ montar_contexto pergunta docs retr k r (some p) patts
      = (contexto_por_pagina docs p r, (contexto_por_pagina docs p r).map cite_of,
         some p) := by
  constructor
  · unfold contexto_por_pagina
    rw [if_neg (by omega)]
    apply range'_map_getD
    have hmax : (0 : Int) ≤ max (p - r) 0 := le_max_right _ _
    have hmin : min (p + r) ((docs.length : Int) - 1) ≤ (docs.length : Int) - 1 :=
      min_le_right _ _
    have hmax2 : max (p - r) 0 ≤ p := max_le (by omega) h0
    omega
  · unfold montar_contexto
    have hres : pagina_resolvida pergunta (some p) patts = some p := rfl
    rw [hres]
    simp [h0, h1]

/-- Claim C8 witness: page 1 of a 3-page document with radius 1 yields all
three pages. -/
theorem contexto_por_pagina_fatia_witness :
    contexto_por_pagina
        [⟨"a", ⟨some 0, some ("d.pdf"), some ("/d.pdf")⟩⟩,
         ⟨"b", ⟨some 1, some ("d.pdf"), some ("/d.pdf")⟩⟩,
         ⟨"c", ⟨some 2, some ("d.pdf"), some ("/d.pdf")⟩⟩] 1 1
      = (([⟨"a", ⟨some 0, some ("d.pdf"), some ("/d.pdf")⟩⟩,
           ⟨"b", ⟨some 1, some ("d.pdf"), some ("/d.pdf")⟩⟩,
           ⟨"c", ⟨some 2, some ("d.pdf"), some ("/d.pdf")⟩⟩] : List Document).drop
            (max ((1 : Int) - 1) 0).toNat).take
          ((min ((1 : Int) + 1) ((3 : Int) - 1)) + 1 - max ((1 : Int) - 1) 0).toNat
    ∧ montar_contexto none
        [⟨"a", ⟨some 0, some ("d.pdf"), some ("/d.pdf")⟩⟩,
         ⟨"b", ⟨some 1, some ("d.pdf"), some ("/d.pdf")⟩⟩,
         ⟨"c", ⟨some 2, some ("d.pdf"), some ("/d.pdf")⟩⟩]
        (fun _ => []) 6 1 (some 1) (word_page_patterns .en)
      = (contexto_por_pagina
           [⟨"a", ⟨some 0, some ("d.pdf"), some ("/d.pdf")⟩⟩,
            ⟨"b", ⟨some 1, some ("d.pdf"), some ("/d.pdf")⟩⟩,
            ⟨"c", ⟨some 2, some ("d.pdf"), some ("/d.pdf")⟩⟩] 1 1,
         (contexto_por_pagina
           [⟨"a", ⟨some 0, some ("d.pdf"), some ("/d.pdf")⟩⟩,
            ⟨"b", ⟨some 1, some ("d.pdf"), some ("/d.pdf")⟩⟩,
            ⟨"c", ⟨some 2, some ("d.pdf"), some ("/d.pdf")⟩⟩] 1 1).map cite_of,
         some 1) :=
  contexto_por_pagina_fatia
    [⟨"a", ⟨some 0, some ("d.pdf"), some ("/d.pdf")⟩⟩,
     ⟨"b", ⟨some 1, some ("d.pdf"), some ("/d.pdf")⟩⟩,
     ⟨"c", ⟨some 2, some ("d.pdf"), some ("/d.pdf")⟩⟩] 1 1 none (fun _ => []) 6
    (word_page_patterns .en) (by decide) (by decide) (by decide)

/-! ## Claim C9 -/

/-- Claim C9: when the assembled context of a query turn is empty or
consists only of blank unit texts, the fixed "not found" message is
returned and no LLM call is made (the guard sits before compaction:
`continuar_turno` never reaches `compactar_docs` on this path). -/
theorem contexto_vazio_sem_llm (docs_paginas mdocs : List Document) (retr : Retriever)
    (minfo : List (Option Int × String)) (mp : Option Int)
    (nome_usuario q llm_resposta : String) (llm_init_ok : Bool) (pn : Int)
    (kk vv : Nat) (st0 : SessionState)
    (hq : q ≠ "") (hnome : st0.user_name ≠ "") (hdocs : docs_paginas ≠ [])
    (hint : detectar_intencao q = "normal")
    (hm : montar_contexto (some q) docs_paginas retr 6 1 none
        (word_page_patterns st0.app_lang) = (mdocs, minfo, mp))
    (hp : ∀ p', mp = some p' → 0 ≤ p' ∧ p' < (docs_paginas.length : Int))
    (hvazio : mdocs = [] ∨ tem_texto mdocs = false) :
    (iniciar_assistente (some retr) docs_paginas nome_usuario kk vv
        ⟨some q, false, pn, false, false, false, false, false, false⟩
        llm_init_ok llm_resposta st0).outcome
      = .notFound (ui_not_found st0.app_lang)
    ∧ llm_called (iniciar_assistente (some retr) docs_paginas nome_usuario kk vv
        ⟨some q, false, pn, false, false, false, false, false, false⟩
        llm_init_ok llm_resposta st0).outcome = false := by
  have h1 : (iniciar_assistente (some retr) docs_paginas nome_usuario kk vv
      ⟨some q, false, pn, false, false, false, false, false, false⟩
      llm_init_ok llm_resposta st0).outcome
      = .notFound (ui_not_found st0.app_lang) := by
    rw [iniciar_roteia_normal retr docs_paginas nome_usuario kk vv q pn
        llm_init_ok llm_resposta st0 hq hnome hdocs hint]
    unfold turno_normal
    rw [hm]
    cases mp with
    | none =>
      simp only []
      rw [continuar_turno_vazio _ _ _ _ _ _ hvazio]
    | some p' =>
      have hin := hp p' rfl
      simp only []
      rw [if_neg (by omega)]
      rw [continuar_turno_vazio _ _ _ _ _ _ hvazio]
  refine ⟨h1, ?_⟩
  rw [h1]
  rfl

/-- Claim C9 witness: a lexical query for which the retriever returns
nothing. -/
theorem contexto_vazio_sem_llm_witness :
    (iniciar_assistente (some (fun _ => []))
        [⟨"hello", ⟨some 0, some ("doc.pdf"), some ("/tmp/doc.pdf")⟩⟩]
        "" 5 1 ⟨some ("zzz"), false, 1, false, false, false, false, false, false⟩
        true ("resp") ⟨.en, "Bob", [], true⟩).outcome
      = .notFound (ui_not_found .en)
    ∧ llm_called (iniciar_assistente (some (fun _ => []))
        [⟨"hello", ⟨some 0, some ("doc.pdf"), some ("/tmp/doc.pdf")⟩⟩]
        "" 5 1 ⟨some ("zzz"), false, 1, false, false, false, false, false, false⟩
        true ("resp") ⟨.en, "Bob", [], true⟩).outcome = false :=
  contexto_vazio_sem_llm
    [⟨"hello", ⟨some 0, some ("doc.pdf"), some ("/tmp/doc.pdf")⟩⟩] [] (fun _ => [])
    [] none ("") "zzz" "resp" true 1 5 1 ⟨.en, "Bob", [], true⟩
    (by decide) (by decide) (by decide) (by decide) (by decide)
    (fun p' h => by cases h) (Or.inl rfl)

/-! ## Claim C7 -/

/-- Claim C7 counterexample: asking `"page 1"` of a document whose page 1
has a blank neighbour page 2 surfaces two citations (pages 1 and 2), while
the compacted context actually used keeps only the one non-blank unit:
citations are not in one-to-one correspondence with the used units. -/
theorem citacoes_incluem_unidade_descartada :
    (iniciar_assistente (some (fun _ => []))
        [⟨"hello", ⟨some 0, some ("doc.pdf"), some ("/tmp/doc.pdf")⟩⟩,
         ⟨"", ⟨some 1, some ("doc.pdf"), some ("/tmp/doc.pdf")⟩⟩]
        "" 5 1 ⟨some ("page 1"), false, 1, false, false, false, false, false, false⟩
        true ("resp") ⟨.en, "Bob", [], true⟩).outcome
      = .answered ("hello") "resp" [(some 1, "doc.pdf"), (some 2, "doc.pdf")]
    ∧ compactar_partes
        [⟨"hello", ⟨some 0, some ("doc.pdf"), some ("/tmp/doc.pdf")⟩⟩,
         ⟨"", ⟨some 1, some ("doc.pdf"), some ("/tmp/doc.pdf")⟩⟩] 5200 = ["hello"]
    ∧ ([(some 1, "doc.pdf"), (some 2, "doc.pdf")] : List (Option Int × String)).length
      ≠ (compactar_partes
          [⟨"hello", ⟨some 0, some ("doc.pdf"), some ("/tmp/doc.pdf")⟩⟩,
           ⟨"", ⟨some 1, some ("doc.pdf"), some ("/tmp/doc.pdf")⟩⟩] 5200).length := by
  decide

/-- Claim C7 (amended): the surfaced citations are in one-to-one
correspondence with the units returned by `_montar_contexto` before
compaction — each citation is the displayed (page + 1, source) pair of one
assembled unit, in the same order; units later dropped by the compaction
budget or blank-skip still receive citations. -/
theorem citacoes_correspondem_contexto (docs_paginas mdocs : List Document)
    (retr : Retriever) (minfo : List (Option Int × String)) (mp : Option Int)
    (nome_usuario q llm_resposta : String) (pn : Int) (kk vv : Nat)
    (st0 : SessionState)
    (hq : q ≠ "") (hnome : st0.user_name ≠ "") (hdocs : docs_paginas ≠ [])
    (hint : detectar_intencao q = "normal")
    (hm : montar_contexto (some q) docs_paginas retr 6 1 none
        (word_page_patterns st0.app_lang) = (mdocs, minfo, mp))
    (hp : ∀ p', mp = some p' → 0 ≤ p' ∧ p' < (docs_paginas.length : Int))
    (hne : mdocs ≠ []) (htx : tem_texto mdocs = true) :
    (iniciar_assistente (some retr) docs_paginas nome_usuario kk vv
        ⟨some q, false, pn, false, false, false, false, false, false⟩
        true llm_resposta st0).outcome
      = .answered (compactar_docs mdocs 5200) llm_resposta (minfo.map display_cite)
    ∧ minfo = mdocs.map cite_of := by
  constructor
  · rw [iniciar_roteia_normal retr docs_paginas nome_usuario kk vv q pn
        true llm_resposta st0 hq hnome hdocs hint]
    unfold turno_normal
    rw [hm]
    cases mp with
    | none =>
      simp only []
      rw [continuar_turno_responde _ _ _ _ _ hne htx]
    | some p' =>
      have hin := hp p' rfl
      simp only []
      rw [if_neg (by omega)]
      rw [continuar_turno_responde _ _ _ _ _ hne htx]
  · have h := montar_info_map (some q) docs_paginas retr 6 1 none
      (word_page_patterns st0.app_lang)
    rw [hm] at h
    exact h

/-- Claim C7 witness: a one-page document answered through the retrieval
path. -/
theorem citacoes_correspondem_contexto_witness :
    (iniciar_assistente
        (some (fun _ => [⟨"hello", ⟨some 0, some ("doc.pdf"), some ("/tmp/doc.pdf")⟩⟩]))
        [⟨"hello", ⟨some 0, some ("doc.pdf"), some ("/tmp/doc.pdf")⟩⟩]
        "" 5 1 ⟨some ("greeting word"), false, 1, false, false, false, false, false, false⟩
        true ("resp") ⟨.en, "Bob", [], true⟩).outcome
      = .answered
          (compactar_docs [⟨"hello", ⟨some 0, some ("doc.pdf"), some ("/tmp/doc.pdf")⟩⟩] 5200)
          "resp"
          ([((some 0 : Option Int), "doc.pdf")].map display_cite)
    ∧ ([((some 0 : Option Int), "doc.pdf")] : List (Option Int × String))
      = ([⟨"hello", ⟨some 0, some ("doc.pdf"), some ("/tmp/doc.pdf")⟩⟩] :
          List Document).map cite_of :=
  citacoes_correspondem_contexto
    [⟨"hello", ⟨some 0, some ("doc.pdf"), some ("/tmp/doc.pdf")⟩⟩]
    [⟨"hello", ⟨some 0, some ("doc.pdf"), some ("/tmp/doc.pdf")⟩⟩]
    (fun _ => [⟨"hello", ⟨some 0, some ("doc.pdf"), some ("/tmp/doc.pdf")⟩⟩])
    [((some 0 : Option Int), "doc.pdf")] none
    "" "greeting word" "resp" 1 5 1 ⟨.en, "Bob", [], true⟩
    (by decide) (by decide) (by decide) (by decide) (by decide)
    (fun p' h => by cases h) (by decide) (by decide)

/-! ## Claim C10 -/

/-- Claim C10: any non-empty chat message sent while the session user
name is empty is consumed entirely as a name introduction — the extractor
runs, the greeting reply is recorded in the history, and the turn ends
without intent routing, page parsing, retrieval (the result does not depend
on the retriever) or any LLM call. -/
theorem primeira_mensagem_captura_nome (retr : Retriever) (docs_paginas : List Document)
    (q llm_resposta : String) (llm_init_ok : Bool) (pn : Int) (kk vv : Nat)
    (st0 : SessionState)
    (hq : q ≠ "") (hnome : st0.user_name = "") (hdocs : docs_paginas ≠ []) :
    iniciar_assistente (some retr) docs_paginas ("") kk vv
        ⟨some q, false, pn, false, false, false, false, false, false⟩
        llm_init_ok llm_resposta st0
      = turno_nome st0.app_lang (file_name_of docs_paginas) q
          (saudacao_inicial (file_name_of docs_paginas) st0)
    ∧ (iniciar_assistente (some retr) docs_paginas ("") kk vv
        ⟨some q, false, pn, false, false, false, false, false, false⟩
        llm_init_ok llm_resposta st0).outcome
      = .nameCapture (extrair_primeiro_nome q)
          (reply_nome st0.app_lang (extrair_primeiro_nome q) (file_name_of docs_paginas))
    ∧ (iniciar_assistente (some retr) docs_paginas ("") kk vv
        ⟨some q, false, pn, false, false, false, false, false, false⟩
        llm_init_ok llm_resposta st0).state.user_name = extrair_primeiro_nome q
    ∧ (iniciar_assistente (some retr) docs_paginas ("") kk vv
        ⟨some q, false, pn, false, false, false, false, false, false⟩
        llm_init_ok llm_resposta st0).state.chat_history
      = (saudacao_inicial (file_name_of docs_paginas) st0).chat_history
          ++ [("user", q),
              ("assistant", reply_nome st0.app_lang (extrair_primeiro_nome q)
                (file_name_of docs_paginas))]
    ∧ llm_called (iniciar_assistente (some retr) docs_paginas ("") kk vv
        ⟨some q, false, pn, false, false, false, false, false, false⟩
        llm_init_ok llm_resposta st0).outcome = false := by
  have ha : apply_nome ("") st0 = st0 := by
    unfold apply_nome
    rw [if_neg]
    rintro ⟨h1, -⟩
    exact h1 rfl
  have h0 : iniciar_assistente (some retr) docs_paginas ("") kk vv
      ⟨some q, false, pn, false, false, false, false, false, false⟩
      llm_init_ok llm_resposta st0
      = turno_nome st0.app_lang (file_name_of docs_paginas) q
          (saudacao_inicial (file_name_of docs_paginas) st0) := by
    unfold iniciar_assistente
    rw [ha]
    simp only []
    rw [if_neg hdocs]
    rw [if_pos ⟨by simp [opt_truthy, hq], by rw [saudacao_user_name]; exact hnome⟩]
    rfl
  refine ⟨h0, ?_, ?_, ?_, ?_⟩
  · rw [h0]
    rfl
  · rw [h0]
    unfold turno_nome
    simp only [push_msg]
    by_cases hn : extrair_primeiro_nome q = ""
    · rw [if_neg (fun hc => hc hn)]
      rw [saudacao_user_name, hnome, hn]
    · rw [if_pos hn]
  · rw [h0]
    unfold turno_nome
    simp only [push_msg]
    by_cases hn : extrair_primeiro_nome q = ""
    · rw [if_neg (fun hc => hc hn)]
      simp
    · rw [if_pos hn]
      simp
  · rw [h0]
    rfl

/-- Claim C10 witness: the first message `"John here"` of a fresh session. -/
theorem primeira_mensagem_captura_nome_witness :
    (iniciar_assistente (some (fun _ => []))
        [⟨"hello", ⟨some 0, some ("doc.pdf"), some ("/tmp/doc.pdf")⟩⟩]
        "" 5 1 ⟨some ("John here"), false, 1, false, false, false, false, false, false⟩
        true ("resp") ⟨.en, "", [], true⟩).outcome
      = .nameCapture (extrair_primeiro_nome ("John here"))
          (reply_nome .en (extrair_primeiro_nome ("John here"))
            (file_name_of [⟨"hello", ⟨some 0, some ("doc.pdf"), some ("/tmp/doc.pdf")⟩⟩])) :=
  (primeira_mensagem_captura_nome (fun _ => [])
    [⟨"hello", ⟨some 0, some ("doc.pdf"), some ("/tmp/doc.pdf")⟩⟩]
    "John here" "resp" true 1 5 1 ⟨.en, "", [], true⟩
    (by decide) (by decide) (by decide)).2.1
